import Mathlib

/-
Verification development for the MQTT→HTTP air-quality bridge (server.js).

The ingestion core of server.js is shallowly embedded below:
  * JavaScript values appearing in payloads are modelled by `JSVal`.
  * JavaScript numbers are modelled as exact rationals plus the two
    infinities (`JsNum`); NaN is represented by `none` in `Option JsNum`
    (the code only ever observes NaN through `isNaN`).  The claims under
    study never depend on binary floating-point rounding.
  * `JSON.parse` is modelled by `jsonParse`, `Number(...)` on strings by
    `jsNumber`, `String(...)` by `jsToString`, and `.toUpperCase()` by
    `jsToUpper`, each faithful to the JavaScript semantics on the inputs
    exercised here (surrogate pairs in \u escapes and exponential
    number printing are out of scope).
  * The shared record `latestAirData` is modelled by `Latest`; a JS object
    property that does not exist yet (relay_pin before its first write)
    is `none`, while a property holding `null` is `JSVal.vnull`.
  * The `mqttClient.on('message')` handler is `processMessage`; the
    try/catch around the esp32 JSON branch is made explicit with
    `Except`, property access on `null` being the one throwing operation
    reachable inside the `try` block.
-/

/-- JavaScript numeric values: exact rationals plus the infinities.  NaN is
represented as `none` where `Option JsNum` is used. -/
inductive JsNum where
  | fin (q : ℚ)
  | posInf
  | negInf
deriving Repr, DecidableEq

/-- JavaScript values that can result from `JSON.parse` or be stored in
`latestAirData` fields. -/
inductive JSVal where
  | vnull
  | vbool (b : Bool)
  | vnum (n : JsNum)
  | vstr (s : String)
  | varr (xs : List JSVal)
  | vobj (kvs : List (String × JSVal))

/-- Test for the JavaScript `null` value. -/
def JSVal.isNull : JSVal → Bool
  | .vnull => true
  | _ => false

/-- Model of JavaScript `String.prototype.trim` (used as
`String(messageBuffer).trim()` in the handler). -/
def jsTrim (s : String) : String :=
  String.mk (((s.data.dropWhile Char.isWhitespace).reverse.dropWhile Char.isWhitespace).reverse)

/-- Model of JavaScript `String.prototype.startsWith`. -/
def strStarts (s pre : String) : Bool :=
  pre.data.isPrefixOf s.data

/-- Model of JavaScript `String.prototype.toUpperCase` (ASCII fragment). -/
def jsToUpper (s : String) : String :=
  String.mk (s.data.map (fun c => if 'a' ≤ c ∧ c ≤ 'z' then Char.ofNat (c.toNat - 32) else c))

/-- Value of one digit character in the given base, `none` if it is not a
digit of that base. -/
def digitVal (base : Nat) (c : Char) : Option Nat :=
  let n : Option Nat :=
    if c.isDigit then some (c.toNat - 48)
    else if 'a' ≤ c ∧ c ≤ 'f' then some (c.toNat - 87)
    else if 'A' ≤ c ∧ c ≤ 'F' then some (c.toNat - 55)
    else none
  match n with
  | some v => if v < base then some v else none
  | none => none

/-- Accumulate a decimal digit list into a natural number. -/
def natOfDigitsAux (acc : Nat) : List Char → Nat
  | [] => acc
  | c :: cs => natOfDigitsAux (acc * 10 + (c.toNat - 48)) cs

/-- Natural number denoted by a list of decimal digit characters. -/
def natOfDigits (cs : List Char) : Nat := natOfDigitsAux 0 cs

/-- Reading of a non-empty digit string in an arbitrary base. -/
def radixNatAux (base : Nat) (acc : Nat) : List Char → Option Nat
  | [] => some acc
  | c :: cs =>
    match digitVal base c with
    | some v => radixNatAux base (acc * base + v) cs
    | none => none

/-- Reading of a digit string in an arbitrary base; `none` on the empty
string or on any non-digit. -/
def radixNat (base : Nat) (cs : List Char) : Option Nat :=
  match cs with
  | [] => none
  | _ => radixNatAux base 0 cs

/-- Exponent suffix of a JavaScript decimal number literal: either the end
of input, or `e`/`E`, an optional sign and a non-empty digit string
consuming the rest of the input. -/
def expTail (cs : List Char) (q : ℚ) : Option ℚ :=
  match cs with
  | [] => some q
  | c :: rest =>
    if c = 'e' ∨ c = 'E' then
      let signed : Bool × List Char :=
        match rest with
        | '+' :: r => (true, r)
        | '-' :: r => (false, r)
        | r => (true, r)
      let ep := signed.2.takeWhile Char.isDigit
      let rem := signed.2.dropWhile Char.isDigit
      if ep.isEmpty then none
      else if rem.isEmpty then
        some (if signed.1 then q * (10 : ℚ) ^ natOfDigits ep else q / (10 : ℚ) ^ natOfDigits ep)
      else none
    else none

/-- Unsigned decimal body of a JavaScript number: digits with an optional
fractional part and exponent, at least one digit around the dot. -/
def decCore (cs : List Char) : Option ℚ :=
  let ip := cs.takeWhile Char.isDigit
  let r1 := cs.dropWhile Char.isDigit
  match r1 with
  | '.' :: r2 =>
    let fp := r2.takeWhile Char.isDigit
    let r3 := r2.dropWhile Char.isDigit
    if ip.isEmpty ∧ fp.isEmpty then none
    else expTail r3 ((natOfDigits ip : ℚ) + (natOfDigits fp : ℚ) / (10 : ℚ) ^ fp.length)
  | _ => if ip.isEmpty then none else expTail r1 (natOfDigits ip : ℚ)

/-- Unsigned body of a JavaScript number after an optional sign:
`Infinity` or a decimal literal. -/
def posBody (cs : List Char) : Option JsNum :=
  if cs = ['I', 'n', 'f', 'i', 'n', 'i', 't', 'y'] then some .posInf
  else (decCore cs).map .fin

/-- Negation of a JavaScript number. -/
def negJs : JsNum → JsNum
  | .fin q => .fin (-q)
  | .posInf => .negInf
  | .negInf => .posInf

/-- Optionally signed JavaScript decimal number body. -/
def signedBody (cs : List Char) : Option JsNum :=
  match cs with
  | '+' :: rest => posBody rest
  | '-' :: rest => (posBody rest).map negJs
  | _ => posBody cs

/-- Model of JavaScript `Number(string)`: `none` is NaN.  The empty (or
all-whitespace) string is 0; unsigned hex/octal/binary literals are
accepted; otherwise an optionally signed decimal literal or `Infinity`. -/
def jsNumber (s : String) : Option JsNum :=
  match (jsTrim s).data with
  | [] => some (.fin 0)
  | '0' :: c :: rest =>
    if c = 'x' ∨ c = 'X' then (radixNat 16 rest).map (fun n => .fin (n : ℚ))
    else if c = 'o' ∨ c = 'O' then (radixNat 8 rest).map (fun n => .fin (n : ℚ))
    else if c = 'b' ∨ c = 'B' then (radixNat 2 rest).map (fun n => .fin (n : ℚ))
    else signedBody ('0' :: c :: rest)
  | cs => signedBody cs

/-- JSON whitespace characters. -/
def jsonWs (c : Char) : Bool :=
  c = ' ' ∨ c = '\n' ∨ c = '\r' ∨ c = '\t'

/-- Drop leading JSON whitespace. -/
def skipWsL (cs : List Char) : List Char := cs.dropWhile jsonWs

/-- Lookup in a JavaScript-object property list (keys are unique, so the
first hit is the property value). -/
def kvLookup : List (String × JSVal) → String → Option JSVal
  | [], _ => none
  | (k', v) :: tl, k => if k' = k then some v else kvLookup tl k

/-- JavaScript property assignment on a property list: overwrite in place
if the key exists, append otherwise. -/
def extSet : List (String × JSVal) → String → JSVal → List (String × JSVal)
  | [], k, v => [(k, v)]
  | (k', v') :: tl, k, v =>
    if k' = k then (k, v) :: tl else (k', v') :: extSet tl k v

/-- JSON string body parser (after the opening quote), fuelled so that it
is structurally recursive and kernel-reducible. -/
def pStr : Nat → List Char → List Char → Option (String × List Char)
  | 0, _, _ => none
  | _ + 1, _, [] => none
  | _ + 1, acc, '"' :: r => some (String.mk acc.reverse, r)
  | f + 1, acc, '\\' :: e :: r =>
    match e with
    | '"' => pStr f ('"' :: acc) r
    | '\\' => pStr f ('\\' :: acc) r
    | '/' => pStr f ('/' :: acc) r
    | 'b' => pStr f ('\x08' :: acc) r
    | 'f' => pStr f ('\x0C' :: acc) r
    | 'n' => pStr f ('\n' :: acc) r
    | 'r' => pStr f ('\r' :: acc) r
    | 't' => pStr f ('\t' :: acc) r
    | 'u' =>
      match r with
      | h1 :: h2 :: h3 :: h4 :: r2 =>
        match digitVal 16 h1, digitVal 16 h2, digitVal 16 h3, digitVal 16 h4 with
        | some a, some b, some c, some d =>
          pStr f (Char.ofNat (((a * 16 + b) * 16 + c) * 16 + d) :: acc) r2
        | _, _, _, _ => none
      | _ => none
    | _ => none
  | f + 1, acc, c :: r => pStr f (c :: acc) r

/-- JSON number parser: `-`? int frac? exp? with the JSON leading-zero
rule; returns the value and the remaining input. -/
def pNum (cs : List Char) : Option (JSVal × List Char) :=
  let signed : Bool × List Char :=
    match cs with
    | '-' :: r => (true, r)
    | r => (false, r)
  let body := signed.2
  match body with
  | c :: _ =>
    if c.isDigit then
      let ip := body.takeWhile Char.isDigit
      let r1 := body.dropWhile Char.isDigit
      if 1 < ip.length ∧ ip.headD '0' = '0' then none
      else
        let step1 : Option (ℚ × List Char) :=
          match r1 with
          | '.' :: r2 =>
            let fp := r2.takeWhile Char.isDigit
            let r3 := r2.dropWhile Char.isDigit
            if fp.isEmpty then none
            else some ((natOfDigits ip : ℚ) + (natOfDigits fp : ℚ) / (10 : ℚ) ^ fp.length, r3)
          | _ => some ((natOfDigits ip : ℚ), r1)
        match step1 with
        | some (q, r4) =>
          let step2 : Option (ℚ × List Char) :=
            match r4 with
            | e :: r5 =>
              if e = 'e' ∨ e = 'E' then
                let esigned : Bool × List Char :=
                  match r5 with
                  | '+' :: r6 => (true, r6)
                  | '-' :: r6 => (false, r6)
                  | r6 => (true, r6)
                let ep := esigned.2.takeWhile Char.isDigit
                let r7 := esigned.2.dropWhile Char.isDigit
                if ep.isEmpty then none
                else some (if esigned.1 then q * (10 : ℚ) ^ natOfDigits ep
                           else q / (10 : ℚ) ^ natOfDigits ep, r7)
              else some (q, r4)
            | [] => some (q, [])
          match step2 with
          | some (q2, r8) => some (.vnum (.fin (if signed.1 then -q2 else q2)), r8)
          | none => none
        | none => none
    else none
  | [] => none

/-- Parsing mode for the fuelled JSON parser: a value, the element list of
an array after at least one element is expected, or the member list of an
object after at least one member is expected. -/
inductive PMode where
  | val
  | arrTail (acc : List JSVal)
  | objTail (acc : List (String × JSVal))

/-- Fuelled JSON parser covering null, booleans, strings, numbers, arrays
and objects; duplicate object keys overwrite in place as in JavaScript. -/
def pj : Nat → PMode → List Char → Option (JSVal × List Char)
  | 0, _, _ => none
  | f + 1, .val, cs =>
    match skipWsL cs with
    | 'n' :: 'u' :: 'l' :: 'l' :: r => some (.vnull, r)
    | 't' :: 'r' :: 'u' :: 'e' :: r => some (.vbool true, r)
    | 'f' :: 'a' :: 'l' :: 's' :: 'e' :: r => some (.vbool false, r)
    | '"' :: r => (pStr (r.length + 1) [] r).map (fun p => (.vstr p.1, p.2))
    | '[' :: r =>
      (match skipWsL r with
       | ']' :: r2 => some (.varr [], r2)
       | r2 => pj f (.arrTail []) r2)
    | '{' :: r =>
      (match skipWsL r with
       | '}' :: r2 => some (.vobj [], r2)
       | r2 => pj f (.objTail []) r2)
    | cs2 => pNum cs2
  | f + 1, .arrTail acc, cs =>
    match pj f .val cs with
    | some (v, r) =>
      (match skipWsL r with
       | ',' :: r2 => pj f (.arrTail (acc ++ [v])) r2
       | ']' :: r2 => some (.varr (acc ++ [v]), r2)
       | _ => none)
    | none => none
  | f + 1, .objTail acc, cs =>
    match skipWsL cs with
    | '"' :: r =>
      (match pStr (r.length + 1) [] r with
       | some (k, r2) =>
         (match skipWsL r2 with
          | ':' :: r3 =>
            (match pj f .val r3 with
             | some (v, r4) =>
               (match skipWsL r4 with
                | ',' :: r5 => pj f (.objTail (extSet acc k v)) r5
                | '}' :: r5 => some (.vobj (extSet acc k v), r5)
                | _ => none)
             | none => none)
          | _ => none)
       | none => none)
    | _ => none

/-- Model of JavaScript `JSON.parse`: `none` when `JSON.parse` throws a
`SyntaxError`.  The fuel `3 * (length + 1)` dominates the recursion depth
of any parse of the input. -/
def jsonParse (s : String) : Option JSVal :=
  match pj (3 * (s.data.length + 1)) .val s.data with
  | some (v, r) => if (skipWsL r).isEmpty then some v else none
  | none => none

/-- Decimal digit string of a rational whose reduced denominator divides a
power of ten (the only shape produced by the parsers here); other
denominators fall back to a fraction notation, a model boundary never hit
by the code under study. -/
def pow10Exp (den : Nat) : Option Nat :=
  (List.range 41).find? (fun k => 10 ^ k % den = 0)

/-- Pad a digit string with leading zeros up to the given width. -/
def padLeftZeros (k : Nat) (s : String) : String :=
  if s.length < k then String.mk (List.replicate (k - s.length) '0') ++ s else s

/-- Model of JavaScript number-to-string conversion for finite values
(exponential notation for very large or small magnitudes is out of
scope). -/
def ratToString (q : ℚ) : String :=
  let sgn := if q.num < 0 then "-" else ""
  let n := q.num.natAbs
  match pow10Exp q.den with
  | some k =>
    if k = 0 then sgn ++ Nat.repr (n / q.den)
    else
      let scaled := n * 10 ^ k / q.den
      sgn ++ Nat.repr (scaled / 10 ^ k) ++ "." ++ padLeftZeros k (Nat.repr (scaled % 10 ^ k))
  | none => sgn ++ Nat.repr n ++ "/" ++ Nat.repr q.den

/-- Model of JavaScript `String(number)`. -/
def numToString : JsNum → String
  | .fin q => ratToString q
  | .posInf => "Infinity"
  | .negInf => "-Infinity"

/-- Join strings with commas (JavaScript `Array.prototype.join`). -/
def joinComma : List String → String
  | [] => ""
  | [s] => s
  | s :: rest => s ++ "," ++ joinComma rest

mutual

/-- Model of JavaScript `String(value)`; arrays join their element strings
with commas. -/
def jsToString : JSVal → String
  | .vnull => "null"
  | .vbool b => if b then "true" else "false"
  | .vnum n => numToString n
  | .vstr s => s
  | .vobj _ => "[object Object]"
  | .varr xs => joinComma (jsToStrL xs)

/-- Element strings of an array under `Array.prototype.join`: `null`
elements print as the empty string. -/
def jsToStrL : List JSVal → List String
  | [] => []
  | v :: tl => (match v with | .vnull => "" | w => jsToString w) :: jsToStrL tl

end

/-- Model of JavaScript `Number(value)` (the `ToNumber` coercion); `none`
is NaN. -/
def toNumber : JSVal → Option JsNum
  | .vnull => some (.fin 0)
  | .vbool b => some (.fin (if b then 1 else 0))
  | .vnum n => some n
  | .vstr s => jsNumber s
  | .vobj _ => none
  | .varr xs => jsNumber (jsToString (.varr xs))

/-- The shared latest-reading record `latestAirData`.  The six initialized
properties hold a `JSVal` (initially `null`); `relay_pin` does not exist
until its first assignment, hence `Option JSVal`; `ext` holds the
dynamically added properties `latestAirData[topic] = numeric` in
insertion order. -/
structure Latest where
  temperature : JSVal
  humidity : JSVal
  co2_eq_ppm : JSVal
  timestamp : JSVal
  device_status : JSVal
  last_topic : JSVal
  relay_pin : Option JSVal
  ext : List (String × JSVal)

/-- Initial record: all six declared properties null, `relay_pin` not yet
present, no dynamic properties. -/
def initialLatest : Latest :=
  { temperature := .vnull, humidity := .vnull, co2_eq_ppm := .vnull,
    timestamp := .vnull, device_status := .vnull, last_topic := .vnull,
    relay_pin := none, ext := [] }

/-- Topic constants of server.js.  Note that all three values lie inside
the `esp32/` namespace. -/
def TOPIC_TEMP : String := "esp32/telemetry"

/-- Topic constant `TOPIC_HUM` of server.js. -/
def TOPIC_HUM : String := "esp32/state"

/-- Topic constant `TOPIC_CO2` of server.js. -/
def TOPIC_CO2 : String := "esp32/control/cmd"

/-- JavaScript bracket assignment `latestAirData[k] = v`: a key equal to a
declared property name writes that property, any other key goes to the
dynamic extension mapping. -/
def setProp (st : Latest) (k : String) (v : JSVal) : Latest :=
  if k = "temperature" then { st with temperature := v }
  else if k = "humidity" then { st with humidity := v }
  else if k = "co2_eq_ppm" then { st with co2_eq_ppm := v }
  else if k = "timestamp" then { st with timestamp := v }
  else if k = "device_status" then { st with device_status := v }
  else if k = "last_topic" then { st with last_topic := v }
  else if k = "relay_pin" then { st with relay_pin := some v }
  else { st with ext := extSet st.ext k v }

/-- Property lookup on a decoded JSON value; non-objects have none of the
recognized properties. -/
def objLookup : JSVal → String → Option JSVal
  | .vobj kvs, k => kvLookup kvs k
  | _, _ => none

/-- JavaScript property read `obj.k`: throws a TypeError when `obj` is
`null`, otherwise yields the property value (`none` = `undefined`). -/
def getProp (v : JSVal) (k : String) : Except Unit (Option JSVal) :=
  if v.isNull then .error () else .ok (objLookup v k)

/-- Stamp step: `latestAirData.last_topic = topic;
latestAirData.timestamp = now`. -/
def stamp (topic now : String) (st : Latest) : Latest :=
  { st with last_topic := .vstr topic, timestamp := .vstr now }

/-- New value of `temperature` for the structured branch: set when the key
is present, non-null and numeric, otherwise keep the old value. -/
def tempVal (tv : Option JSVal) (old : JSVal) : JSVal :=
  match tv with
  | some v =>
    if v.isNull then old
    else
      match toNumber v with
      | some t => .vnum t
      | none => old
  | none => old

/-- Structured-branch temperature statement of the handler. -/
def tempStep (tv : Option JSVal) (st : Latest) : Latest :=
  { st with temperature := tempVal tv st.temperature }

/-- New value of `humidity` for the structured branch. -/
def humVal (hv : Option JSVal) (old : JSVal) : JSVal :=
  match hv with
  | some v =>
    if v.isNull then old
    else
      match toNumber v with
      | some h => .vnum h
      | none => old
  | none => old

/-- Structured-branch humidity statement of the handler. -/
def humStep (hv : Option JSVal) (st : Latest) : Latest :=
  { st with humidity := humVal hv st.humidity }

/-- New value of `co2_eq_ppm` for the structured branch: the `gas_mq135`
key takes priority, otherwise the `co2_eq_ppm` key; no null filtering in
the source. -/
def gasVal (gv cv : Option JSVal) (old : JSVal) : JSVal :=
  match gv with
  | some v =>
    (match toNumber v with
     | some g => .vnum g
     | none => old)
  | none =>
    match cv with
    | some v =>
      (match toNumber v with
       | some g => .vnum g
       | none => old)
    | none => old

/-- Structured-branch gas/CO2 statement of the handler. -/
def gasStep (gv cv : Option JSVal) (st : Latest) : Latest :=
  { st with co2_eq_ppm := gasVal gv cv st.co2_eq_ppm }

/-- New value of `relay_pin` from the `relay_pin` key: strict equality
against `1`, `'1'`, `true` gives 1; against `0`, `'0'`, `false` gives 0;
any other string is sent through the case-insensitive `=== 'ON'` test;
everything else leaves the property untouched. -/
def relayVal (rv : Option JSVal) (old : Option JSVal) : Option JSVal :=
  match rv with
  | none => old
  | some v =>
    match v with
    | .vnum (.fin q) =>
      if q = 1 then some (.vnum (.fin 1))
      else if q = 0 then some (.vnum (.fin 0))
      else old
    | .vstr s =>
      if s = "1" then some (.vnum (.fin 1))
      else if s = "0" then some (.vnum (.fin 0))
      else some (.vnum (.fin (if jsToUpper s = "ON" then 1 else 0)))
    | .vbool true => some (.vnum (.fin 1))
    | .vbool false => some (.vnum (.fin 0))
    | _ => old

/-- Structured-branch relay statement of the handler. -/
def relayStep (rv : Option JSVal) (st : Latest) : Latest :=
  { st with relay_pin := relayVal rv st.relay_pin }

/-- New value of `relay_pin` from the `state` key: present values of any
type are stringified and compared case-insensitively to `ON`. -/
def stateVal (sv : Option JSVal) (old : Option JSVal) : Option JSVal :=
  match sv with
  | some v => some (.vnum (.fin (if jsToUpper (jsToString v) = "ON" then 1 else 0)))
  | none => old

/-- Structured-branch state statement of the handler. -/
def stateStep (sv : Option JSVal) (st : Latest) : Latest :=
  { st with relay_pin := stateVal sv st.relay_pin }

/-- New value of `device_status` from the `status` key. -/
def statusVal (uv : Option JSVal) (old : JSVal) : JSVal :=
  match uv with
  | some v => .vstr (jsToString v)
  | none => old

/-- Structured-branch status statement of the handler. -/
def statusStep (uv : Option JSVal) (st : Latest) : Latest :=
  { st with device_status := statusVal uv st.device_status }

/-- Continuation of the try block after the gas/CO2 statement: relay,
state, status, then the stamp. -/
def afterGas (obj : JSVal) (st3 : Latest) (topic now : String) : Except Unit Latest :=
  match getProp obj "relay_pin" with
  | .error e => .error e
  | .ok rv =>
  let st4 := relayStep rv st3
  match getProp obj "state" with
  | .error e => .error e
  | .ok sv =>
  let st5 := stateStep sv st4
  match getProp obj "status" with
  | .error e => .error e
  | .ok uv =>
  let st6 := statusStep uv st5
  .ok (stamp topic now st6)

/-- Body of the try block of the esp32 branch, after `JSON.parse`
succeeded: sequential property reads (each can throw if `obj` is `null`)
interleaved with the field assignments, ending with the stamp. -/
def tryBody (obj : JSVal) (st0 : Latest) (topic now : String) : Except Unit Latest :=
  match getProp obj "temperature" with
  | .error e => .error e
  | .ok tv =>
  let st1 := tempStep tv st0
  match getProp obj "humidity" with
  | .error e => .error e
  | .ok hv =>
  let st2 := humStep hv st1
  match getProp obj "gas_mq135" with
  | .error e => .error e
  | .ok gv =>
  match gv with
  | some v => afterGas obj (gasStep (some v) none st2) topic now
  | none =>
    match getProp obj "co2_eq_ppm" with
    | .error e => .error e
    | .ok cv => afterGas obj (gasStep none cv st2) topic now

/-- Numeric fallback of the catch clause in the esp32 branch: three exact
topic matches, then an unconditional stamp when the payload is numeric. -/
def esp32Fallback (st : Latest) (topic p now : String) : Latest :=
  match jsNumber p with
  | some n =>
    let st1 :=
      if topic = "esp32/temperature" then { st with temperature := .vnum n }
      else if topic = "esp32/humidity" then { st with humidity := .vnum n }
      else if topic = "esp32/co2" then { st with co2_eq_ppm := .vnum n }
      else st
    stamp topic now st1
  | none => st

/-- Field assignment of the numeric (non-esp32) branch: exact matches
against the three topic constants, otherwise a bracket assignment keyed by
the raw topic. -/
def numAssign (st : Latest) (topic : String) (n : JsNum) : Latest :=
  if topic = TOPIC_TEMP then { st with temperature := .vnum n }
  else if topic = TOPIC_HUM then { st with humidity := .vnum n }
  else if topic = TOPIC_CO2 then { st with co2_eq_ppm := .vnum n }
  else setProp st topic (.vnum n)

/-- Numeric (non-esp32) branch of the handler: on a numeric payload,
assign and stamp; otherwise leave the record untouched. -/
def numericTail (st : Latest) (topic p now : String) : Latest :=
  match jsNumber p with
  | some n => stamp topic now (numAssign st topic n)
  | none => st

/-- The `mqttClient.on('message')` handler of server.js on one delivered
`(topic, payload)` pair, with `now` the ISO timestamp the handler would
compute.  The esp32 branch models the try/catch explicitly: a thrown
`SyntaxError` from `JSON.parse` or `TypeError` from a property read on
`null` lands in the numeric fallback. -/
def processMessage (st : Latest) (topic payload now : String) : Except Unit Latest :=
  if strStarts topic "esp32/" then
    match (match jsonParse (jsTrim payload) with
           | some obj => tryBody obj st topic now
           | none => Except.error ()) with
    | .ok st2 => .ok st2
    | .error _ => .ok (esp32Fallback st topic (jsTrim payload) now)
  else
    .ok (numericTail st topic (jsTrim payload) now)

/-- Resulting state of one handler invocation (total: the handler never
raises, see the safety claim). -/
def procOk (st : Latest) (topic payload now : String) : Latest :=
  match processMessage st topic payload now with
  | .ok st2 => st2
  | .error _ => st

/-- Sequential processing of a list of delivered `(topic, payload, now)`
events, in delivery order. -/
def runMsgs (st : Latest) : List (String × String × String) → Latest
  | [] => st
  | (t, p, n) :: rest => runMsgs (procOk st t p n) rest

/-- Serialization of `latestAirData` by `res.json` on `GET
/api/air/latest`: the six declared properties in insertion order, then
`relay_pin` if it exists, then the dynamic properties; properties holding
`null` serialize as JSON null, non-existent properties are omitted. -/
def serializeLatest (st : Latest) : List (String × JSVal) :=
  [("temperature", st.temperature), ("humidity", st.humidity),
   ("co2_eq_ppm", st.co2_eq_ppm), ("timestamp", st.timestamp),
   ("device_status", st.device_status), ("last_topic", st.last_topic)]
  ++ (match st.relay_pin with
      | some v => [("relay_pin", v)]
      | none => [])
  ++ st.ext

/-- Topic filters subscribed at connect time: `home/air/#` and `esp32/#`.
By MQTT multi-level wildcard matching, a topic is deliverable exactly when
it is one of the filter roots or extends one of them. -/
def deliveredTopic (t : String) : Prop :=
  t = "esp32" ∨ strStarts t "esp32/" = true ∨
  t = "home/air" ∨ strStarts t "home/air/" = true

/-- Invariant claimed for the relay field: absent, or exactly 0 or 1. -/
def relayOK (st : Latest) : Prop :=
  st.relay_pin = none ∨ st.relay_pin = some (.vnum (.fin 0)) ∨
  st.relay_pin = some (.vnum (.fin 1))

/-- Characterization of when one handler invocation stamps `timestamp`
and `last_topic`: on an esp32 topic, whenever the payload JSON-parses to a
non-null value, or fails JSON parsing (or parses to null, making the first
property read throw) while being numeric; on any other topic, whenever the
payload is numeric. -/
def stampedCond (topic payload : String) : Prop :=
  if strStarts topic "esp32/" then
    (∃ obj, jsonParse (jsTrim payload) = some obj ∧ obj.isNull = false) ∨
    ((jsonParse (jsTrim payload) = none ∨ jsonParse (jsTrim payload) = some .vnull) ∧
      jsNumber (jsTrim payload) ≠ none)
  else
    jsNumber (jsTrim payload) ≠ none

/-- Property reads on a non-null value never throw and yield the plain
lookup. -/
theorem getProp_ok {v : JSVal} (h : v.isNull = false) (k : String) :
    getProp v k = .ok (objLookup v k) := by
  simp [getProp, h]

/-- Only the null value satisfies `isNull`. -/
theorem isNull_true {v : JSVal} (h : v.isNull = true) : v = .vnull := by
  cases v <;> simp [JSVal.isNull] at h ⊢

/-- On a payload that parses to JSON `null`, the first property read of
the try block throws, so the whole block throws. -/
theorem tryBody_null (st : Latest) (topic now : String) :
    tryBody .vnull st topic now = .error () := rfl

/-- Decomposition of the try block on any non-null parsed value: the six
field statements apply in order and the stamp always runs. -/
theorem tryBody_ok (obj : JSVal) (st : Latest) (topic now : String)
    (h : obj.isNull = false) :
    tryBody obj st topic now =
      .ok (stamp topic now
        (statusStep (objLookup obj "status")
          (stateStep (objLookup obj "state")
            (relayStep (objLookup obj "relay_pin")
              (gasStep (objLookup obj "gas_mq135") (objLookup obj "co2_eq_ppm")
                (humStep (objLookup obj "humidity")
                  (tempStep (objLookup obj "temperature") st))))))) := by
  cases hg : objLookup obj "gas_mq135" with
  | some v =>
    simp only [tryBody, getProp_ok h, hg, afterGas]
    rfl
  | none =>
    simp only [tryBody, getProp_ok h, hg, afterGas]

/-- C6: for every topic and every payload that parses neither as JSON nor
as a number, the handler leaves the whole record unchanged — timestamp,
last_topic, all data fields and the extension mapping included. -/
theorem c6_unparseable_noop (st : Latest) (topic payload now : String)
    (hj : jsonParse (jsTrim payload) = none)
    (hn : jsNumber (jsTrim payload) = none) :
    processMessage st topic payload now = .ok st := by
  by_cases hs : strStarts topic "esp32/"
  · simp [processMessage, hs, hj, esp32Fallback, hn]
  · simp [processMessage, hs, numericTail, hn]

/-- Witness for C6 at the spec's concrete scenario C: the legacy
temperature topic with payload `not-a-number` leaves the initial record
unchanged. -/
theorem c6_witness :
    processMessage initialLatest "esp32/telemetry" "not-a-number" "T0" = .ok initialLatest :=
  c6_unparseable_noop initialLatest "esp32/telemetry" "not-a-number" "T0" rfl rfl

/-- C9: for every topic and payload the message handler completes without
raising: its result is always `Except.ok`, all malformed input being
classified and dropped inside the handler. -/
theorem c9_never_raises (st : Latest) (topic payload now : String) :
    ∃ st2, processMessage st topic payload now = .ok st2 := by
  by_cases hs : strStarts topic "esp32/"
  · simp only [processMessage, hs, if_true]
    cases hj : jsonParse (jsTrim payload) with
    | none => exact ⟨_, rfl⟩
    | some obj =>
      cases ht : tryBody obj st topic now with
      | ok st2 => exact ⟨st2, by simp [ht]⟩
      | error e => exact ⟨esp32Fallback st topic (jsTrim payload) now, by simp [ht]⟩
  · simp only [processMessage]
    rw [if_neg hs]
    exact ⟨_, rfl⟩

/-- C2 (evaluation at the failing input): on the configured CO2 topic
constant with payload `412`, the handler routes through the esp32 JSON
branch (the payload parses as the JSON number 412), writes no data field,
and only stamps timestamp and last_topic; `co2_eq_ppm` stays null instead
of becoming 412 as the spec requires. -/
theorem c2_code_eval :
    (procOk initialLatest TOPIC_CO2 "412" "T0").co2_eq_ppm = .vnull ∧
    (procOk initialLatest TOPIC_CO2 "412" "T0").timestamp = .vstr "T0" ∧
    (procOk initialLatest TOPIC_CO2 "412" "T0").last_topic = .vstr TOPIC_CO2 :=
  ⟨rfl, rfl, rfl⟩

/-- C1 is false on the code: the empty JSON object on an esp32 topic
writes no data field (all fields keep their initial values and the
extension map stays empty), yet timestamp and last_topic are updated. -/
theorem c1_counterexample :
    (procOk initialLatest "esp32/x" "\x7b\x7d" "T0").timestamp = .vstr "T0" ∧
    (procOk initialLatest "esp32/x" "\x7b\x7d" "T0").last_topic = .vstr "esp32/x" ∧
    (procOk initialLatest "esp32/x" "\x7b\x7d" "T0").temperature = .vnull ∧
    (procOk initialLatest "esp32/x" "\x7b\x7d" "T0").humidity = .vnull ∧
    (procOk initialLatest "esp32/x" "\x7b\x7d" "T0").co2_eq_ppm = .vnull ∧
    (procOk initialLatest "esp32/x" "\x7b\x7d" "T0").device_status = .vnull ∧
    (procOk initialLatest "esp32/x" "\x7b\x7d" "T0").relay_pin = none ∧
    (procOk initialLatest "esp32/x" "\x7b\x7d" "T0").ext = [] :=
  ⟨rfl, rfl, rfl, rfl, rfl, rfl, rfl, rfl⟩

/-- C10: every topic outside the `esp32/` namespace with a numeric payload
is stored by a bracket assignment keyed by the raw topic string (the
extension mapping for non-declared keys) and stamps timestamp and
last_topic; the three legacy exact-match branches are unreachable there
because all three topic constants start with `esp32/`. -/
theorem c10_unknown_numeric (st : Latest) (topic payload now : String) (q : JsNum)
    (hs : strStarts topic "esp32/" = false)
    (hn : jsNumber (jsTrim payload) = some q) :
    processMessage st topic payload now =
      .ok (stamp topic now (setProp st topic (.vnum q))) ∧
    strStarts TOPIC_TEMP "esp32/" = true ∧
    strStarts TOPIC_HUM "esp32/" = true ∧
    strStarts TOPIC_CO2 "esp32/" = true ∧
    topic ≠ TOPIC_TEMP ∧ topic ≠ TOPIC_HUM ∧ topic ≠ TOPIC_CO2 ∧
    (topic ∉ (["temperature", "humidity", "co2_eq_ppm", "timestamp",
               "device_status", "last_topic", "relay_pin"] : List String) →
      (setProp st topic (.vnum q)).ext = extSet st.ext topic (.vnum q)) := by
  have ht : topic ≠ TOPIC_TEMP := by
    intro h
    rw [h] at hs
    exact absurd hs (by decide)
  have hh : topic ≠ TOPIC_HUM := by
    intro h
    rw [h] at hs
    exact absurd hs (by decide)
  have hc : topic ≠ TOPIC_CO2 := by
    intro h
    rw [h] at hs
    exact absurd hs (by decide)
  refine ⟨?_, by decide, by decide, by decide, ht, hh, hc, ?_⟩
  · simp [processMessage, hs, numericTail, hn, numAssign, ht, hh, hc]
  · intro hmem
    simp only [List.mem_cons, List.not_mem_nil, or_false, not_or] at hmem
    obtain ⟨h1, h2, h3, h4, h5, h6, h7⟩ := hmem
    simp [setProp, h1, h2, h3, h4, h5, h6, h7]

/-- Witness for C10 at the spec's concrete scenario D: unknown topic
`sensor/pressure` with payload `1013`. -/
theorem c10_witness :
    processMessage initialLatest "sensor/pressure" "1013" "T0" =
      .ok (stamp "sensor/pressure" "T0"
        (setProp initialLatest "sensor/pressure" (.vnum (.fin 1013)))) :=
  (c10_unknown_numeric initialLatest "sensor/pressure" "1013" "T0" (.fin 1013)
    (by decide) rfl).1

/-- C8: a structured update `gas_mq135 = v` and one `co2_eq_ppm = v` on an
esp32 topic produce identical resulting `co2_eq_ppm` values, namely the
numeric value itself. -/
theorem c8_alias_equiv (st : Latest) (topic p1 p2 now : String) (q : ℚ)
    (hs : strStarts topic "esp32/" = true)
    (h1 : jsonParse (jsTrim p1) = some (.vobj [("gas_mq135", .vnum (.fin q))]))
    (h2 : jsonParse (jsTrim p2) = some (.vobj [("co2_eq_ppm", .vnum (.fin q))])) :
    (procOk st topic p1 now).co2_eq_ppm = (procOk st topic p2 now).co2_eq_ppm ∧
    (procOk st topic p1 now).co2_eq_ppm = .vnum (.fin q) := by
  simp only [procOk, processMessage, hs, if_true, h1, h2,
    tryBody_ok (.vobj [("gas_mq135", .vnum (.fin q))]) st topic now rfl,
    tryBody_ok (.vobj [("co2_eq_ppm", .vnum (.fin q))]) st topic now rfl]
  exact ⟨rfl, rfl⟩

/-- Witness for C8 at the spec's value 450. -/
theorem c8_witness :
    (procOk initialLatest "esp32/telemetry" "\x7b\"gas_mq135\":450\x7d" "T0").co2_eq_ppm =
      (procOk initialLatest "esp32/telemetry" "\x7b\"co2_eq_ppm\":450\x7d" "T0").co2_eq_ppm :=
  (c8_alias_equiv initialLatest "esp32/telemetry"
    "\x7b\"gas_mq135\":450\x7d" "\x7b\"co2_eq_ppm\":450\x7d" "T0" 450
    (by decide) rfl rfl).1

/-- C7: a structured update containing only a subset of the recognized
keys changes only the canonical fields its present keys map to (plus
timestamp and last_topic); every other data field and the extension
mapping keep their prior values. -/
theorem c7_frame (st : Latest) (topic payload now : String)
    (kvs : List (String × JSVal))
    (hs : strStarts topic "esp32/" = true)
    (hp : jsonParse (jsTrim payload) = some (.vobj kvs))
    (_hrec : ∀ kv ∈ kvs, kv.1 ∈ (["temperature", "humidity", "gas_mq135",
      "co2_eq_ppm", "relay_pin", "state", "status"] : List String)) :
    (kvLookup kvs "temperature" = none →
      (procOk st topic payload now).temperature = st.temperature) ∧
    (kvLookup kvs "humidity" = none →
      (procOk st topic payload now).humidity = st.humidity) ∧
    (kvLookup kvs "gas_mq135" = none → kvLookup kvs "co2_eq_ppm" = none →
      (procOk st topic payload now).co2_eq_ppm = st.co2_eq_ppm) ∧
    (kvLookup kvs "relay_pin" = none → kvLookup kvs "state" = none →
      (procOk st topic payload now).relay_pin = st.relay_pin) ∧
    (kvLookup kvs "status" = none →
      (procOk st topic payload now).device_status = st.device_status) ∧
    (procOk st topic payload now).ext = st.ext := by
  simp only [procOk, processMessage, hs, if_true, hp,
    tryBody_ok (.vobj kvs) st topic now rfl]
  refine ⟨?_, ?_, ?_, ?_, ?_, rfl⟩
  · intro h1
    simp [stamp, statusStep, stateStep, relayStep, gasStep, humStep, tempStep,
      tempVal, objLookup, h1]
  · intro h1
    simp [stamp, statusStep, stateStep, relayStep, gasStep, humStep, tempStep,
      humVal, objLookup, h1]
  · intro h1 h2
    simp [stamp, statusStep, stateStep, relayStep, gasStep, humStep, tempStep,
      gasVal, objLookup, h1, h2]
  · intro h1 h2
    simp [stamp, statusStep, stateStep, relayStep, gasStep, humStep, tempStep,
      stateVal, relayVal, objLookup, h1, h2]
  · intro h1
    simp [stamp, statusStep, stateStep, relayStep, gasStep, humStep, tempStep,
      statusVal, objLookup, h1]

/-- Witness for C7 at the spec's concrete scenario A shape: a
temperature+humidity object leaves co2, relay, status and the extension
map of the initial record unchanged. -/
theorem c7_witness :
    (procOk initialLatest "esp32/telemetry"
        " \x7b\"temperature\": 23, \"humidity\": 60\x7d " "T1").co2_eq_ppm =
      initialLatest.co2_eq_ppm ∧
    (procOk initialLatest "esp32/telemetry"
        " \x7b\"temperature\": 23, \"humidity\": 60\x7d " "T1").relay_pin =
      initialLatest.relay_pin ∧
    (procOk initialLatest "esp32/telemetry"
        " \x7b\"temperature\": 23, \"humidity\": 60\x7d " "T1").device_status =
      initialLatest.device_status ∧
    (procOk initialLatest "esp32/telemetry"
        " \x7b\"temperature\": 23, \"humidity\": 60\x7d " "T1").ext =
      initialLatest.ext := by
  have h := c7_frame initialLatest "esp32/telemetry"
    " \x7b\"temperature\": 23, \"humidity\": 60\x7d " "T1"
    [("temperature", .vnum (.fin 23)), ("humidity", .vnum (.fin 60))]
    (by decide) (by rfl) (by decide)
  exact ⟨h.2.2.1 rfl rfl, h.2.2.2.1 rfl rfl, h.2.2.2.2.1 rfl, h.2.2.2.2.2⟩

/-- Numeric fallback of the esp32 branch stamps whenever the payload is
numeric, regardless of whether any field matched. -/
theorem esp32Fallback_timestamp (st : Latest) (topic p now : String) (n : JsNum)
    (h : jsNumber p = some n) :
    (esp32Fallback st topic p now).timestamp = .vstr now ∧
    (esp32Fallback st topic p now).last_topic = .vstr topic := by
  simp only [esp32Fallback, h]
  exact ⟨rfl, rfl⟩

/-- C1 amended: timestamp and last_topic are updated if and only if the
message passes decoding (`stampedCond`), not if and only if a data field
was written — on esp32 topics any successfully parsed non-null JSON
payload stamps even when it writes no field, and a numeric payload that
fails JSON parsing stamps even when it matches no fallback topic. -/
theorem c1_amended (st : Latest) (topic payload now : String)
    (hfresh : st.timestamp ≠ .vstr now) :
    (((procOk st topic payload now).timestamp = .vstr now ∧
      (procOk st topic payload now).last_topic = .vstr topic) ↔
      stampedCond topic payload) := by
  by_cases hs : strStarts topic "esp32/"
  · rw [stampedCond, if_pos hs]
    cases hj : jsonParse (jsTrim payload) with
    | some obj =>
      cases hn : obj.isNull with
      | true =>
        obtain rfl : obj = .vnull := isNull_true hn
        cases hq : jsNumber (jsTrim payload) with
        | some n =>
          constructor
          · intro _
            exact Or.inr ⟨Or.inr rfl, by simp⟩
          · intro _
            simp only [procOk, processMessage, hs, if_true, hj, tryBody_null]
            exact esp32Fallback_timestamp st topic (jsTrim payload) now n hq
        | none =>
          simp only [procOk, processMessage, hs, if_true, hj, tryBody_null,
            esp32Fallback, hq]
          constructor
          · intro hcontra
            exact absurd hcontra.1 hfresh
          · rintro (⟨obj2, hobj2, hnn⟩ | ⟨_, hnum⟩)
            · cases hobj2
              simp [JSVal.isNull] at hnn
            · exact absurd rfl hnum
      | false =>
        simp only [procOk, processMessage, hs, if_true, hj,
          tryBody_ok obj st topic now hn]
        constructor
        · intro _
          exact Or.inl ⟨obj, rfl, hn⟩
        · intro _
          exact ⟨rfl, rfl⟩
    | none =>
      cases hq : jsNumber (jsTrim payload) with
      | some n =>
        constructor
        · intro _
          exact Or.inr ⟨Or.inl rfl, by simp⟩
        · intro _
          simp only [procOk, processMessage, hs, if_true, hj]
          exact esp32Fallback_timestamp st topic (jsTrim payload) now n hq
      | none =>
        simp only [procOk, processMessage, hs, if_true, hj, esp32Fallback, hq]
        constructor
        · intro hcontra
          exact absurd hcontra.1 hfresh
        · rintro (⟨obj2, hobj2, _⟩ | ⟨_, hnum⟩)
          · exact Option.noConfusion hobj2
          · exact absurd rfl hnum
  · have hs2 : strStarts topic "esp32/" = false := by
      cases h : strStarts topic "esp32/"
      · rfl
      · exact absurd h hs
    rw [stampedCond, if_neg hs]
    simp only [procOk, processMessage, hs2, Bool.false_eq_true, if_false]
    cases hq : jsNumber (jsTrim payload) with
    | some n =>
      simp only [numericTail, hq]
      constructor
      · intro _
        simp [hq]
      · intro _
        exact ⟨rfl, rfl⟩
    | none =>
      simp only [numericTail, hq]
      constructor
      · intro hcontra
        exact absurd hcontra.1 hfresh
      · intro hnum
        exact absurd rfl hnum

/-- Witness for the amended C1 at the counterexample input `{}` on an
esp32 topic. -/
theorem c1_amended_witness :
    (((procOk initialLatest "esp32/x" "\x7b\x7d" "T0").timestamp = .vstr "T0" ∧
      (procOk initialLatest "esp32/x" "\x7b\x7d" "T0").last_topic = .vstr "esp32/x") ↔
      stampedCond "esp32/x" "\x7b\x7d") :=
  c1_amended initialLatest "esp32/x" "\x7b\x7d" "T0" (fun h => JSVal.noConfusion h)

/-- C5 is false on the code: the unrecognized relay string `banana` is not
dropped — it overwrites a previously set `relay_pin = 1` with 0 via the
case-insensitive ON test. -/
theorem c5_counterexample :
    (procOk (procOk initialLatest "esp32/dev" "\x7b\"relay_pin\":1\x7d" "T1")
        "esp32/dev" "\x7b\"relay_pin\":\"banana\"\x7d" "T2").relay_pin =
      some (.vnum (.fin 0)) ∧
    (procOk initialLatest "esp32/dev" "\x7b\"relay_pin\":1\x7d" "T1").relay_pin =
      some (.vnum (.fin 1)) :=
  ⟨rfl, rfl⟩

/-- C5 amended: only non-string unrecognized relay representations
(numbers other than 0/1, null, arrays, objects, infinities) are dropped
silently; every string value is coerced, to 1 for `"1"` or any
case-insensitive `ON`, and to 0 otherwise. -/
theorem c5_amended (st : Latest) (topic payload now : String) (v : JSVal)
    (hs : strStarts topic "esp32/" = true)
    (hp : jsonParse (jsTrim payload) = some (.vobj [("relay_pin", v)])) :
    ((∀ b, v ≠ .vbool b) → (∀ s, v ≠ .vstr s) →
      v ≠ .vnum (.fin 0) → v ≠ .vnum (.fin 1) →
      (procOk st topic payload now).relay_pin = st.relay_pin) ∧
    (∀ s, v = .vstr s →
      (procOk st topic payload now).relay_pin =
        some (.vnum (.fin (if s = "1" ∨ jsToUpper s = "ON" then 1 else 0)))) := by
  simp only [procOk, processMessage, hs, if_true, hp,
    tryBody_ok (.vobj [("relay_pin", v)]) st topic now rfl]
  have hrelay :
      (stamp topic now
        (statusStep (objLookup (.vobj [("relay_pin", v)]) "status")
          (stateStep (objLookup (.vobj [("relay_pin", v)]) "state")
            (relayStep (objLookup (.vobj [("relay_pin", v)]) "relay_pin")
              (gasStep (objLookup (.vobj [("relay_pin", v)]) "gas_mq135")
                (objLookup (.vobj [("relay_pin", v)]) "co2_eq_ppm")
                (humStep (objLookup (.vobj [("relay_pin", v)]) "humidity")
                  (tempStep (objLookup (.vobj [("relay_pin", v)]) "temperature")
                    st))))))).relay_pin = relayVal (some v) st.relay_pin := rfl
  rw [hrelay]
  constructor
  · intro hb hstr h0 h1
    cases v with
    | vnull => rfl
    | vbool b => exact absurd rfl (hb b)
    | vstr s => exact absurd rfl (hstr s)
    | vnum n =>
      cases n with
      | fin q =>
        have hq1 : ¬q = 1 := fun h => h1 (by rw [h])
        have hq0 : ¬q = 0 := fun h => h0 (by rw [h])
        simp [relayVal, hq0, hq1]
      | posInf => rfl
      | negInf => rfl
    | varr xs => rfl
    | vobj kvs => rfl
  · rintro s rfl
    by_cases h1 : s = "1"
    · simp [relayVal, h1]
    · by_cases h0 : s = "0"
      · subst h0
        simp [relayVal]
        decide
      · by_cases hon : jsToUpper s = "ON"
        · simp [relayVal, h1, h0, hon]
        · simp [relayVal, h1, h0, hon]

/-- Witness for the amended C5: the unrecognized numeric relay value 5 is
dropped, leaving `relay_pin` absent. -/
theorem c5_amended_witness :
    (procOk initialLatest "esp32/dev" "\x7b\"relay_pin\":5\x7d" "T1").relay_pin =
      initialLatest.relay_pin :=
  (c5_amended initialLatest "esp32/dev" "\x7b\"relay_pin\":5\x7d" "T1"
      (.vnum (.fin 5)) (by decide) (by rfl)).1
    (fun b h => JSVal.noConfusion h) (fun s h => JSVal.noConfusion h)
    (by intro h; cases h; )
    (by intro h; cases h; )

/-- Bracket assignment under any key other than `relay_pin` does not touch
the relay field. -/
theorem setProp_relay (st : Latest) (k : String) (v : JSVal)
    (h : k ≠ "relay_pin") : (setProp st k v).relay_pin = st.relay_pin := by
  unfold setProp
  split_ifs <;> simp_all

/-- The esp32 numeric fallback never touches the relay field. -/
theorem esp32Fallback_relay (st : Latest) (topic p now : String) :
    (esp32Fallback st topic p now).relay_pin = st.relay_pin := by
  unfold esp32Fallback
  cases jsNumber p with
  | none => rfl
  | some n =>
    show (stamp topic now _).relay_pin = st.relay_pin
    unfold stamp
    split_ifs
    all_goals rfl

/-- The `relay_pin`-key coercion yields absent, 0 or 1 whenever the old
value was. -/
theorem relayVal_ok (rv : Option JSVal) (old : Option JSVal)
    (h : old = none ∨ old = some (.vnum (.fin 0)) ∨ old = some (.vnum (.fin 1))) :
    relayVal rv old = none ∨ relayVal rv old = some (.vnum (.fin 0)) ∨
      relayVal rv old = some (.vnum (.fin 1)) := by
  cases rv with
  | none => exact h
  | some v =>
    cases v with
    | vnull => exact h
    | vbool b => cases b <;> simp [relayVal]
    | vstr s =>
      by_cases h1 : s = "1"
      · simp [relayVal, h1]
      · by_cases h0 : s = "0"
        · simp [relayVal, h0, h1]
        · by_cases hon : jsToUpper s = "ON" <;> simp [relayVal, h0, h1, hon]
    | vnum n =>
      cases n with
      | fin q =>
        by_cases h1 : q = 1
        · simp [relayVal, h1]
        · by_cases h0 : q = 0
          · simp [relayVal, h0, h1]
          · simp [relayVal, h0, h1]
            exact h
      | posInf => exact h
      | negInf => exact h
    | varr xs => exact h
    | vobj kvs => exact h

/-- The `state`-key coercion yields absent, 0 or 1 whenever the old value
was. -/
theorem stateVal_ok (sv : Option JSVal) (old : Option JSVal)
    (h : old = none ∨ old = some (.vnum (.fin 0)) ∨ old = some (.vnum (.fin 1))) :
    stateVal sv old = none ∨ stateVal sv old = some (.vnum (.fin 0)) ∨
      stateVal sv old = some (.vnum (.fin 1)) := by
  cases sv with
  | none => exact h
  | some v =>
    by_cases hon : jsToUpper (jsToString v) = "ON"
    · simp [stateVal, hon]
    · simp [stateVal, hon]

/-- No deliverable topic is the bare string `relay_pin`. -/
theorem deliveredTopic_ne_relay {t : String} (hd : deliveredTopic t) :
    t ≠ "relay_pin" := by
  rintro rfl
  rcases hd with h | h | h | h
  · exact absurd h (by decide)
  · exact absurd h (by decide)
  · exact absurd h (by decide)
  · exact absurd h (by decide)

/-- One handler invocation on a deliverable topic preserves the relay
invariant. -/
theorem relayOK_step (st : Latest) (t p n : String)
    (hd : deliveredTopic t) (h : relayOK st) : relayOK (procOk st t p n) := by
  by_cases hs : strStarts t "esp32/"
  · simp only [procOk, processMessage, hs, if_true]
    cases hj : jsonParse (jsTrim p) with
    | none =>
      simp only [relayOK, esp32Fallback_relay]
      exact h
    | some obj =>
      cases hn : obj.isNull with
      | true =>
        obtain rfl : obj = .vnull := isNull_true hn
        simp only [tryBody_null, relayOK, esp32Fallback_relay]
        exact h
      | false =>
        simp only [tryBody_ok obj st t n hn]
        show relayOK (stamp t n _)
        simp only [relayOK, stamp, statusStep, stateStep, relayStep]
        exact stateVal_ok _ _ (relayVal_ok _ _ h)
  · have hs2 : strStarts t "esp32/" = false := by
      cases hval : strStarts t "esp32/"
      · rfl
      · exact absurd hval hs
    simp only [procOk, processMessage, hs2, Bool.false_eq_true, if_false]
    cases hq : jsNumber (jsTrim p) with
    | none =>
      simp only [numericTail, hq]
      exact h
    | some m =>
      simp only [numericTail, hq, relayOK, stamp, numAssign]
      split_ifs
      · exact h
      · exact h
      · exact h
      · rw [setProp_relay st t _ (deliveredTopic_ne_relay hd)]
        exact h

/-- C4: after processing any sequence of delivered messages from the
initial record, `relay_pin` is absent or exactly 0 or exactly 1. -/
theorem c4_relay_invariant (msgs : List (String × String × String))
    (hd : ∀ m ∈ msgs, deliveredTopic m.1) :
    relayOK (runMsgs initialLatest msgs) := by
  have general : ∀ (ms : List (String × String × String)) (st : Latest),
      (∀ m ∈ ms, deliveredTopic m.1) → relayOK st → relayOK (runMsgs st ms) := by
    intro ms
    induction ms with
    | nil => intro st _ h; exact h
    | cons hd2 tl ih =>
      intro st hms h
      obtain ⟨t, pp, nn⟩ := hd2
      exact ih (procOk st t pp nn) (fun m hm => hms m (List.mem_cons_of_mem _ hm))
        (relayOK_step st t pp nn (hms (t, pp, nn) (List.mem_cons_self _ _)) h)
  exact general msgs initialLatest hd (Or.inl rfl)

/-- Witness for C4 on a one-message delivered sequence setting the relay. -/
theorem c4_witness :
    relayOK (runMsgs initialLatest
      [("esp32/dev", "\x7b\"relay_pin\":true\x7d", "T1")]) :=
  c4_relay_invariant [("esp32/dev", "\x7b\"relay_pin\":true\x7d", "T1")]
    (by
      intro m hm
      simp only [List.mem_singleton] at hm
      subst hm
      exact Or.inr (Or.inl (by decide)))

/-- C3 is false on the code: at the initial (all-absent) state the
serialized record contains no `relay_pin` key at all — the never-updated
relay field is omitted from the JSON response, not serialized as null,
while the six initialized fields do appear as null. -/
theorem c3_counterexample :
    kvLookup (serializeLatest initialLatest) "relay_pin" = none ∧
    initialLatest.relay_pin = none ∧
    kvLookup (serializeLatest initialLatest) "temperature" = some .vnull :=
  ⟨rfl, rfl, rfl⟩

/-- Property assignment under one key leaves lookups of other keys
unchanged. -/
theorem kvLookup_extSet_ne (l : List (String × JSVal)) (k k2 : String)
    (v : JSVal) (h : k ≠ k2) : kvLookup (extSet l k v) k2 = kvLookup l k2 := by
  induction l with
  | nil => simp [extSet, kvLookup, h]
  | cons kv tl ih =>
    obtain ⟨k3, v3⟩ := kv
    by_cases h3 : k3 = k
    · subst h3
      simp [extSet, kvLookup, h]
    · simp [extSet, kvLookup, h3, ih]

/-- Bracket assignment never creates a `relay_pin` key in the extension
mapping (that key is routed to the declared property). -/
theorem setProp_ext_relay (st : Latest) (k : String) (v : JSVal)
    (h : kvLookup st.ext "relay_pin" = none) :
    kvLookup (setProp st k v).ext "relay_pin" = none := by
  unfold setProp
  split_ifs with h1 h2 h3 h4 h5 h6 h7
  · exact h
  · exact h
  · exact h
  · exact h
  · exact h
  · exact h
  · exact h
  · rw [kvLookup_extSet_ne st.ext k "relay_pin" v h7]
    exact h

/-- The esp32 numeric fallback never touches the extension mapping. -/
theorem esp32Fallback_ext (st : Latest) (topic p now : String) :
    (esp32Fallback st topic p now).ext = st.ext := by
  unfold esp32Fallback
  cases jsNumber p with
  | none => rfl
  | some n =>
    show (stamp topic now _).ext = st.ext
    unfold stamp
    split_ifs
    all_goals rfl

/-- One handler invocation never creates a `relay_pin` key in the
extension mapping. -/
theorem procOk_ext_relay (st : Latest) (t p n : String)
    (h : kvLookup st.ext "relay_pin" = none) :
    kvLookup (procOk st t p n).ext "relay_pin" = none := by
  by_cases hs : strStarts t "esp32/"
  · simp only [procOk, processMessage, hs, if_true]
    cases hj : jsonParse (jsTrim p) with
    | none =>
      simp only [esp32Fallback_ext]
      exact h
    | some obj =>
      cases hn : obj.isNull with
      | true =>
        obtain rfl : obj = .vnull := isNull_true hn
        simp only [tryBody_null, esp32Fallback_ext]
        exact h
      | false =>
        simp only [tryBody_ok obj st t n hn]
        exact h
  · have hs2 : strStarts t "esp32/" = false := by
      cases hval : strStarts t "esp32/"
      · rfl
      · exact absurd hval hs
    simp only [procOk, processMessage, hs2, Bool.false_eq_true, if_false]
    cases hq : jsNumber (jsTrim p) with
    | none =>
      simp only [numericTail, hq]
      exact h
    | some m =>
      simp only [numericTail, hq, stamp, numAssign]
      split_ifs
      · exact h
      · exact h
      · exact h
      · exact setProp_ext_relay st t _ h

/-- No message sequence ever creates a `relay_pin` key in the extension
mapping. -/
theorem runMsgs_ext_relay (msgs : List (String × String × String)) (st : Latest)
    (h : kvLookup st.ext "relay_pin" = none) :
    kvLookup (runMsgs st msgs).ext "relay_pin" = none := by
  induction msgs generalizing st with
  | nil => exact h
  | cons m tl ih =>
    obtain ⟨t, p, n⟩ := m
    exact ih (procOk st t p n) (procOk_ext_relay st t p n h)

/-- C3 amended: in every reachable state, the six initialized fields of
the record always appear in the `/api/air/latest` JSON body (as null
while never updated), while `relay_pin` appears exactly when it has been
written — a never-updated `relay_pin` is omitted from the body rather
than serialized as null. -/
theorem c3_amended (msgs : List (String × String × String)) :
    (kvLookup (serializeLatest (runMsgs initialLatest msgs)) "temperature" =
      some (runMsgs initialLatest msgs).temperature) ∧
    (kvLookup (serializeLatest (runMsgs initialLatest msgs)) "humidity" =
      some (runMsgs initialLatest msgs).humidity) ∧
    (kvLookup (serializeLatest (runMsgs initialLatest msgs)) "co2_eq_ppm" =
      some (runMsgs initialLatest msgs).co2_eq_ppm) ∧
    (kvLookup (serializeLatest (runMsgs initialLatest msgs)) "timestamp" =
      some (runMsgs initialLatest msgs).timestamp) ∧
    (kvLookup (serializeLatest (runMsgs initialLatest msgs)) "device_status" =
      some (runMsgs initialLatest msgs).device_status) ∧
    (kvLookup (serializeLatest (runMsgs initialLatest msgs)) "last_topic" =
      some (runMsgs initialLatest msgs).last_topic) ∧
    (kvLookup (serializeLatest (runMsgs initialLatest msgs)) "relay_pin" =
      (runMsgs initialLatest msgs).relay_pin) := by
  refine ⟨rfl, rfl, rfl, rfl, rfl, rfl, ?_⟩
  have hinv := runMsgs_ext_relay msgs initialLatest rfl
  have hskip : kvLookup (serializeLatest (runMsgs initialLatest msgs)) "relay_pin" =
      kvLookup ((match (runMsgs initialLatest msgs).relay_pin with
                 | some v => [("relay_pin", v)]
                 | none => []) ++ (runMsgs initialLatest msgs).ext) "relay_pin" := rfl
  rw [hskip]
  cases hr : (runMsgs initialLatest msgs).relay_pin with
  | some v => simp [kvLookup]
  | none =>
    simp only [List.nil_append]
    exact hinv
